import Mathlib

/-! Formal model of the command line scripts of the scilpy repository.

The scripts under scripts/ are argument-parsing wrappers around a shared
scientific library.  Each script is embedded as a pure Lean function from
its parsed arguments and an abstract file-system state to a run record:
the ordered list of externally visible effects the process performs, and
an optional terminal error (none meaning a successful, zero exit).

Pure helpers of the scripts are translated directly from the source.
External collaborators (nibabel, os.path, multiprocessing, the dipy
loaders) are modelled from their documented behaviour.  Library pieces of
this repository that are not part of the four scripts (the fibertube
Tracker, the streamline operation kernels) are modelled from the
specification and marked as such in their doc comments. -/

namespace ScilpyModel

/-- Errors a modelled Python process can terminate with. parserError stands
for the nonzero-exit path of argparse (parser.error); the remaining
constructors stand for uncaught Python exceptions of the same name. -/
inductive PyError where
  | parserError : String → PyError
  | nameError : String → PyError
  | attributeError : String → PyError
  | typeError : String → PyError
  | syntaxError : PyError
deriving DecidableEq

/-- Externally visible effects of a modelled run, in program order. -/
inductive Effect where
  | loadTractogram : String → Effect
  | track : Effect
  | writeTractogram : String → Bool → Effect
  | writeConfig : String → Effect
  | printConfig : Effect
  | logWarning : String → Effect
  | mkdirTmp : String → Effect
  | computeCache : String → Effect
  | writeJson : String → List (String × List ℚ) → Effect
  | rmtree : String → Effect
  | processSurface : Effect
deriving DecidableEq

/-- Outcome of one process invocation: the effects it performed, in order,
and how it terminated (none is a successful exit). -/
structure Run where
  effects : List Effect
  result : Option PyError
deriving DecidableEq

/-- Model of the Python builtin int() applied to a real value: truncation
toward zero. -/
def pyInt (q : ℚ) : ℤ := if 0 ≤ q then ⌊q⌋ else ⌈q⌉

/-- Model of os.path.splitext for ordinary file names: split at the last
dot of the path, returning (root, extension with its dot); a path without
a dot has an empty extension. -/
def splitext (p : String) : String × String :=
  let cs := p.toList
  if '.' ∈ cs then
    let extLen := (cs.reverse.takeWhile (fun c => c ≠ '.')).length + 1
    (String.mk (cs.take (cs.length - extLen)), String.mk (cs.drop (cs.length - extLen)))
  else (p, "")

/-- Model of the external nibabel check nib.streamlines.is_supported: the
supported streamline file formats are TRK and TCK, recognised by file
extension (the script error messages state must be trk or tck). -/
def is_supported (p : String) : Bool :=
  [".trk", ".tck"].contains (splitext p).2

namespace FT

/-- Arguments of scil_ft_tracking after argument parsing, with the
defaults of _build_arg_parser (scripts/scil_ft_tracking.py lines 47-162).
rk_order is kept unvalidated here; parse_cli below applies the argparse
choices=[1, 2, 4] check of lines 88-94. -/
structure FTArgs where
  in_fibertubes : String
  out_tractogram : String
  step_size : ℚ
  blur_radius : ℚ
  min_length : ℚ := 10
  max_length : ℚ := 300
  theta : ℚ := 60
  rk_order : ℤ := 1
  max_invalid_nb_points : ℕ := 0
  forward_only : Bool := false
  keep_last_out_point : Bool := false
  nb_seeds_per_fiber : ℕ := 5
  nb_fibers : Option ℕ := none
  rng_seed : ℕ := 0
  skip : ℕ := 0
  do_not_save_seeds : Bool := false
  out_config : Option String := none
  overwrite : Bool := false
  nbr_processes : ℕ := 1
deriving DecidableEq

/-- The sidecar seeds path of lines 181-185: the output path with _seeds
inserted before its extension. -/
def seedsPath (args : FTArgs) : String :=
  let pr := splitext args.out_tractogram
  pr.1 ++ "_seeds" ++ pr.2

/-- The outputs list built at lines 183-185: the output tractogram, plus
the sidecar seeds path unless do_not_save_seeds is set. -/
def outputs (args : FTArgs) : List String :=
  if args.do_not_save_seeds = false then
    [args.out_tractogram, seedsPath args]
  else [args.out_tractogram]

/-- All paths submitted to the collision check assert_outputs_exist at
line 188: the outputs list plus, when given, the out_config path (passed
as an optional output). -/
def outputsChecked (args : FTArgs) : List String :=
  outputs args ++ args.out_config.toList

/-- max_nbr_pts of line 192: int(max_length / step_size). -/
def max_nbr_pts (args : FTArgs) : ℤ := pyInt (args.max_length / args.step_size)

/-- min_nbr_pts of line 193: max(int(min_length / step_size), 1). -/
def min_nbr_pts (args : FTArgs) : ℤ := max (pyInt (args.min_length / args.step_size)) 1

/-- Straight-line model of main (scripts/scil_ft_tracking.py lines
165-259).  fs is the set of existing files.  Checks, in source order:
input and output extension (lines 173-179, parser.error), input existence
(assert_inputs_exist, line 187), output collision without the overwrite
flag (assert_outputs_exist, line 188).  Then the tractogram is loaded,
tracking runs, and the output tractogram is saved (line 245) carrying the
seeds as data_per_streamline when do_not_save_seeds is unset (lines
243-244).  Finally the config block of lines 247-259: with out_config the
config dict is built and written; without it the else branch evaluates
the name config, which was only assigned inside the if branch, so the
process dies with a NameError after the tractogram was already saved. -/
def main (args : FTArgs) (fs : List String) : Run :=
  if is_supported args.in_fibertubes = false then
    { effects := [], result := some (PyError.parserError ("Invalid input streamline file format (must be trk or tck)")) }
  else if is_supported args.out_tractogram = false then
    { effects := [], result := some (PyError.parserError ("Invalid output streamline file format (must be trk or tck)")) }
  else if args.in_fibertubes ∉ fs then
    { effects := [], result := some (PyError.parserError ("Input file does not exist")) }
  else if args.overwrite = false ∧ ∃ o ∈ outputsChecked args, o ∈ fs then
    { effects := [], result := some (PyError.parserError ("Output file exists, use -f to force overwriting")) }
  else
    let base := [Effect.loadTractogram args.in_fibertubes, Effect.track,
                 Effect.writeTractogram args.out_tractogram (!args.do_not_save_seeds)]
    match args.out_config with
    | some c => { effects := base ++ [Effect.writeConfig c], result := none }
    | none => { effects := base, result := some (PyError.nameError ("config")) }

/-- The argparse choices list of the rk_order option (lines 88-94). -/
def rk_order_choices : List ℤ := [1, 2, 4]

/-- Model of the argparse validation pass over the raw command line: the
only constrained value modelled here is rk_order, whose choices list
rejects every other value with parser.error before main runs. -/
def parse_cli (raw : FTArgs) : Except PyError FTArgs :=
  if raw.rk_order ∈ rk_order_choices then Except.ok raw
  else Except.error (PyError.parserError ("argument --rk_order: invalid choice"))

/-- A full invocation of the script: argparse validation, then main. -/
def runScript (raw : FTArgs) (fs : List String) : Run :=
  match parse_cli raw with
  | Except.error e => { effects := [], result := some e }
  | Except.ok args => main args fs

/-- Fuel-driven splitting of a list into consecutive chunks of size
max k 1; the fuel is always instantiated with the list length, which
suffices. -/
def chunksOfAux {α : Type} : ℕ → ℕ → List α → List (List α)
  | 0, _, _ => []
  | _ + 1, _, [] => []
  | fuel + 1, k, x :: xs => (x :: xs.take (k - 1)) :: chunksOfAux fuel k (xs.drop (k - 1))

/-- Split a list into consecutive chunks of size max k 1. -/
def chunksOf {α : Type} (k : ℕ) (l : List α) : List (List α) :=
  chunksOfAux l.length k l

/-- Modelled from the spec: the Tracker (scilpy.tracking.tracker, not
under src/) distributes the seed list across nbr_processes workers as a
disjoint partition of consecutive chunks, and the collection barrier
concatenates the per-worker results in partition order. -/
def workerPartition {α : Type} (nbr_processes : ℕ) (l : List α) : List (List α) :=
  let n := max nbr_processes 1
  chunksOf ((l.length + n - 1) / n) l

/-- Modelled from the spec: after applying the skip offset into the
deterministic seed stream, the run consumes the seed indices
skip, skip + 1, ..., skip + nbr_seeds - 1. -/
def seedIndices (skip nbr_seeds : ℕ) : List ℕ :=
  (List.range nbr_seeds).map (fun i => i + skip)

/-- Modelled from the spec: the Tracker keeps a finished streamline only
when its point count lies within [min_nbr_pts, max_nbr_pts], and
discards it otherwise. -/
def lengthFilter {P : Type} (min_pts max_pts : ℕ) (s : List P) : Option (List P) :=
  if min_pts ≤ s.length ∧ s.length ≤ max_pts then some s else none

/-- Modelled from the spec: Tracker.track.  propagateSeed is the
per-seed propagation of the Propagator; its only inputs are the global
run seed and the seed index, which is the determinism requirement of the
spec.  Each worker maps propagation and length filtering over its chunk
of the seed indices, and the results are concatenated at the join
point. -/
def tracker_track {P : Type} (propagateSeed : ℕ → ℕ → List P)
    (rng_seed skip nbr_seeds min_pts max_pts nbr_processes : ℕ) : List (List P) :=
  ((workerPartition nbr_processes (seedIndices skip nbr_seeds)).map
    (fun part => part.filterMap
      (fun i => lengthFilter min_pts max_pts (propagateSeed rng_seed i)))).flatten

/-- The seed count of lines 221-224: nb_seeds_per_fiber times nb_fibers
when the latter is given, else nb_seeds_per_fiber times the number of
loaded centerlines. -/
def nbr_seeds (args : FT.FTArgs) (nbr_centerlines : ℕ) : ℕ :=
  match args.nb_fibers with
  | some nf => args.nb_seeds_per_fiber * nf
  | none => args.nb_seeds_per_fiber * nbr_centerlines

/-- The tracking stage of scil_ft_tracking as wired up at lines 226-238:
the Tracker is constructed with the wrapper values min_nbr_pts, max_nbr_pts,
rng_seed, skip and process count, and track() is invoked. -/
def ft_track {P : Type} (propagateSeed : ℕ → ℕ → List P) (args : FT.FTArgs)
    (nbr_centerlines : ℕ) : List (List P) :=
  tracker_track propagateSeed args.rng_seed args.skip (nbr_seeds args nbr_centerlines)
    (FT.min_nbr_pts args).toNat (FT.max_nbr_pts args).toNat args.nbr_processes

theorem chunksOfAux_flatten {α : Type} :
    ∀ (fuel k : ℕ) (l : List α), l.length ≤ fuel → (chunksOfAux fuel k l).flatten = l := by
  intro fuel
  induction fuel with
  | zero =>
    intro k l hl
    cases l with
    | nil => rfl
    | cons x xs => simp at hl
  | succ fuel ih =>
    intro k l hl
    cases l with
    | nil => rfl
    | cons x xs =>
      have hxs : xs.length ≤ fuel := by
        simp only [List.length_cons] at hl
        omega
      simp only [chunksOfAux, List.flatten_cons]
      rw [ih k (xs.drop (k - 1)) (by simp only [List.length_drop]; omega)]
      simp [List.take_append_drop]

theorem flatten_chunksOf {α : Type} (k : ℕ) (l : List α) : (chunksOf k l).flatten = l :=
  chunksOfAux_flatten l.length k l (Nat.le_refl _)

theorem map_filterMap_flatten {α β : Type} (f : α → Option β) :
    ∀ (L : List (List α)), (L.map (List.filterMap f)).flatten = List.filterMap f L.flatten := by
  intro L
  induction L with
  | nil => rfl
  | cons l ls ih =>
    simp only [List.map_cons, List.flatten_cons, List.filterMap_append, ih]

/-- Canonical form of the modelled tracker: its output is the flat
filterMap over the seed indices, with the worker partition gone. -/
theorem tracker_track_eq {P : Type} (propagateSeed : ℕ → ℕ → List P)
    (rng_seed skip ns min_pts max_pts n : ℕ) :
    tracker_track propagateSeed rng_seed skip ns min_pts max_pts n =
      (seedIndices skip ns).filterMap
        (fun i => lengthFilter min_pts max_pts (propagateSeed rng_seed i)) := by
  unfold tracker_track workerPartition
  rw [map_filterMap_flatten, flatten_chunksOf]

end FT

def ft_fs : List String := ["in.trk"]

def c1_args : FT.FTArgs :=
  { in_fibertubes := "in.trk", out_tractogram := "out.trk",
    step_size := 1/2, blur_radius := 1/10 }

/-- C1: the claim fails on the code.  A fully valid invocation of
scil_ft_tracking without out_config does not terminate successfully:
after saving the output tractogram, the config report block raises
NameError because config is only assigned inside the out_config branch,
while the very same invocation with out_config set succeeds.  This
contradicts the help text of out_config (if not given, the config will
be printed in the console). -/
theorem c1_no_out_config_name_error :
    FT.main c1_args ft_fs =
      { effects := [Effect.loadTractogram ("in.trk"), Effect.track,
                    Effect.writeTractogram ("out.trk") true],
        result := some (PyError.nameError ("config")) }
    ∧ (FT.main { c1_args with out_config := some ("cfg.txt") } ft_fs).result = none := by
  decide

def c2_args : FT.FTArgs :=
  { in_fibertubes := "in.trk", out_tractogram := "out.trk",
    step_size := 1/2, blur_radius := 1/10, out_config := some ("cfg.txt") }

/-- C2 counterexample: on a successful run with seed saving enabled the
run never writes a tractogram at the sidecar seeds path out_seeds.trk;
the claim that a sidecar seeds tractogram file is written is false. -/
theorem c2_no_sidecar_seeds_file :
    c2_args.do_not_save_seeds = false
    ∧ FT.seedsPath c2_args = "out_seeds.trk"
    ∧ (FT.main c2_args ft_fs).result = none
    ∧ ∀ b, Effect.writeTractogram ("out_seeds.trk") b ∉ (FT.main c2_args ft_fs).effects := by
  decide

/-- A run of FT.main that exits successfully necessarily took the branch
with out_config set, and its effect trace is exactly load, track, the
single tractogram write and the config write. -/
theorem ft_main_success_shape (args : FT.FTArgs) (fs : List String)
    (hok : (FT.main args fs).result = none) :
    ∃ c, args.out_config = some c
      ∧ FT.main args fs =
          { effects := [Effect.loadTractogram args.in_fibertubes, Effect.track,
              Effect.writeTractogram args.out_tractogram (!args.do_not_save_seeds),
              Effect.writeConfig c],
            result := none } := by
  unfold FT.main at hok ⊢
  by_cases h1 : is_supported args.in_fibertubes = false
  · rw [if_pos h1] at hok
    simp at hok
  · rw [if_neg h1] at hok ⊢
    by_cases h2 : is_supported args.out_tractogram = false
    · rw [if_pos h2] at hok
      simp at hok
    · rw [if_neg h2] at hok ⊢
      by_cases h3 : args.in_fibertubes ∉ fs
      · rw [if_pos h3] at hok
        simp at hok
      · rw [if_neg h3] at hok ⊢
        by_cases h4 : args.overwrite = false ∧ ∃ o ∈ FT.outputsChecked args, o ∈ fs
        · rw [if_pos h4] at hok
          simp at hok
        · rw [if_neg h4] at hok ⊢
          cases hoc : args.out_config with
          | none =>
            rw [hoc] at hok
            simp at hok
          | some c =>
            exact ⟨c, rfl, by simp⟩

/-- C2 as amended: unless do_not_save_seeds is set, the sidecar seeds
path only takes part in the pre-run collision check (it is in the
outputs list), and a successful run performs exactly one tractogram
write, to out_tractogram itself with the seeds attached as
data_per_streamline, followed by the config write; no separate seeds
file is written. -/
theorem c2_seeds_as_dps (args : FT.FTArgs) (fs : List String)
    (hseeds : args.do_not_save_seeds = false)
    (hok : (FT.main args fs).result = none) :
    FT.seedsPath args ∈ FT.outputs args
    ∧ ∃ c, args.out_config = some c
        ∧ (FT.main args fs).effects =
            [Effect.loadTractogram args.in_fibertubes, Effect.track,
             Effect.writeTractogram args.out_tractogram true, Effect.writeConfig c] := by
  obtain ⟨c, hoc, hmain⟩ := ft_main_success_shape args fs hok
  constructor
  · unfold FT.outputs
    rw [hseeds]
    simp
  · refine ⟨c, hoc, ?_⟩
    rw [hmain]
    simp [hseeds]

/-- C2 amended claim witness at a concrete successful invocation. -/
theorem c2_seeds_as_dps_witness :
    FT.seedsPath c2_args ∈ FT.outputs c2_args
    ∧ ∃ c, c2_args.out_config = some c
        ∧ (FT.main c2_args ft_fs).effects =
            [Effect.loadTractogram c2_args.in_fibertubes, Effect.track,
             Effect.writeTractogram c2_args.out_tractogram true, Effect.writeConfig c] :=
  c2_seeds_as_dps c2_args ft_fs (by decide) (by decide)

/-- C3: determinism of the modelled tracking stage.  With the per-seed
propagation a function of the single run seed and the seed index only,
the output of the run is the same for any two worker counts, and it
equals a flat filterMap over the seed indices in which neither the
worker count nor any scheduling data occurs, so two runs with the same
input, rng_seed, step parameters and worker count are identical. -/
theorem c3_deterministic_seed_streams {P : Type} (propagateSeed : ℕ → ℕ → List P)
    (args : FT.FTArgs) (nc n₁ n₂ : ℕ) :
    FT.ft_track propagateSeed { args with nbr_processes := n₁ } nc
      = FT.ft_track propagateSeed { args with nbr_processes := n₂ } nc
    ∧ FT.ft_track propagateSeed args nc
      = (FT.seedIndices args.skip (FT.nbr_seeds args nc)).filterMap
          (fun i => FT.lengthFilter (FT.min_nbr_pts args).toNat (FT.max_nbr_pts args).toNat
            (propagateSeed args.rng_seed i)) := by
  unfold FT.ft_track
  rw [FT.tracker_track_eq, FT.tracker_track_eq, FT.tracker_track_eq]
  exact ⟨rfl, rfl⟩

/-- C4: every streamline emitted by the modelled tracking stage of
scil_ft_tracking has a point count within [min_nbr_pts, max_nbr_pts] as
computed by the wrapper from min_length, max_length and step_size at
lines 192-193; raw streamlines outside the bounds are discarded. -/
theorem c4_emitted_length_bounds {P : Type} (propagateSeed : ℕ → ℕ → List P)
    (args : FT.FTArgs) (nc : ℕ) (s : List P)
    (hs : s ∈ FT.ft_track propagateSeed args nc) :
    (FT.min_nbr_pts args).toNat ≤ s.length ∧ s.length ≤ (FT.max_nbr_pts args).toNat := by
  unfold FT.ft_track at hs
  rw [FT.tracker_track_eq] at hs
  rcases List.mem_filterMap.mp hs with ⟨i, _, hf⟩
  unfold FT.lengthFilter at hf
  split_ifs at hf with hcond
  cases hf
  exact hcond

def c4_args : FT.FTArgs :=
  { in_fibertubes := "in.trk", out_tractogram := "out.trk",
    step_size := 1, blur_radius := 1 }

theorem c4_min_nbr_pts_val : (FT.min_nbr_pts c4_args).toNat = 10 := by
  have h : FT.min_nbr_pts c4_args = 10 := by
    norm_num [FT.min_nbr_pts, pyInt, c4_args]
  rw [h]
  rfl

theorem c4_max_nbr_pts_val : (FT.max_nbr_pts c4_args).toNat = 300 := by
  have h : FT.max_nbr_pts c4_args = 300 := by
    norm_num [FT.max_nbr_pts, pyInt, c4_args]
  rw [h]
  rfl

/-- C4 witness: a concrete emitted streamline of 10 points lies within
the bounds computed from min_length 10, max_length 300, step_size 1. -/
theorem c4_emitted_length_bounds_witness :
    (FT.min_nbr_pts c4_args).toNat ≤ (List.replicate 10 (0 : ℕ)).length
    ∧ (List.replicate 10 (0 : ℕ)).length ≤ (FT.max_nbr_pts c4_args).toNat :=
  c4_emitted_length_bounds (fun _ _ => List.replicate 10 0) c4_args 1 _ (by
    unfold FT.ft_track
    rw [FT.tracker_track_eq]
    refine List.mem_filterMap.mpr ⟨0, ?_, ?_⟩
    · simp [FT.seedIndices, FT.nbr_seeds, c4_args]
    · have hcond : (FT.min_nbr_pts c4_args).toNat ≤ (List.replicate 10 (0 : ℕ)).length
          ∧ (List.replicate 10 (0 : ℕ)).length ≤ (FT.max_nbr_pts c4_args).toNat := by
        rw [c4_min_nbr_pts_val, c4_max_nbr_pts_val]
        simp
      unfold FT.lengthFilter
      rw [if_pos hcond])

def c5_args : FT.FTArgs :=
  { in_fibertubes := "in.nii", out_tractogram := "out.trk",
    step_size := 1/2, blur_radius := 1/10 }

/-- C5: every configuration error of scil_ft_tracking (unsupported input
or output extension, missing input file, pre-existing checked output
without the overwrite flag) aborts the run with parser.error before any
effect takes place: nothing is loaded, no tracking starts, and no output
is written. -/
theorem c5_config_errors_abort_early (args : FT.FTArgs) (fs : List String)
    (herr : is_supported args.in_fibertubes = false
      ∨ is_supported args.out_tractogram = false
      ∨ args.in_fibertubes ∉ fs
      ∨ (args.overwrite = false ∧ ∃ o ∈ FT.outputsChecked args, o ∈ fs)) :
    ∃ m, FT.main args fs = { effects := [], result := some (PyError.parserError m) } := by
  unfold FT.main
  by_cases h1 : is_supported args.in_fibertubes = false
  · rw [if_pos h1]
    exact ⟨_, rfl⟩
  · rw [if_neg h1]
    by_cases h2 : is_supported args.out_tractogram = false
    · rw [if_pos h2]
      exact ⟨_, rfl⟩
    · rw [if_neg h2]
      by_cases h3 : args.in_fibertubes ∉ fs
      · rw [if_pos h3]
        exact ⟨_, rfl⟩
      · rw [if_neg h3]
        by_cases h4 : args.overwrite = false ∧ ∃ o ∈ FT.outputsChecked args, o ∈ fs
        · rw [if_pos h4]
          exact ⟨_, rfl⟩
        · rcases herr with h | h | h | h
          · exact (h1 h).elim
          · exact (h2 h).elim
          · exact (h3 h).elim
          · exact (h4 h).elim

/-- C5 witness: an unsupported input extension aborts with no effects. -/
theorem c5_config_errors_abort_early_witness :
    ∃ m, FT.main c5_args [] = { effects := [], result := some (PyError.parserError m) } :=
  c5_config_errors_abort_early c5_args [] (Or.inl (by decide))

/-- C7: the argparse choices check accepts rk_order exactly for 1, 2 and
4; any other value is rejected with parser.error before main runs, the
invocation performing no effect. -/
theorem c7_rk_order_choices_enforced (raw : FT.FTArgs) (fs : List String) :
    (FT.parse_cli raw = Except.ok raw
      ↔ (raw.rk_order = 1 ∨ raw.rk_order = 2 ∨ raw.rk_order = 4))
    ∧ (¬(raw.rk_order = 1 ∨ raw.rk_order = 2 ∨ raw.rk_order = 4) →
        FT.runScript raw fs =
          { effects := [],
            result := some (PyError.parserError ("argument --rk_order: invalid choice")) }) := by
  have hmem : raw.rk_order ∈ FT.rk_order_choices
      ↔ (raw.rk_order = 1 ∨ raw.rk_order = 2 ∨ raw.rk_order = 4) := by
    simp [FT.rk_order_choices]
  constructor
  · unfold FT.parse_cli
    split_ifs with h
    · simp [hmem.mp h]
    · constructor
      · intro hok
        exact absurd hok (by simp)
      · intro hd
        exact (h (hmem.mpr hd)).elim
  · intro hd
    unfold FT.runScript FT.parse_cli
    rw [if_neg (fun h => hd (hmem.mp h))]

namespace BPC

/-- Arguments of scil_bundle_pairwise_comparison after parsing, with the
defaults of _build_arg_parser (scripts/scil_bundle_pairwise_comparison.py
lines 59-92).  ratio_flag stands for the ratio store_true option. -/
structure BPCArgs where
  in_bundles : List String
  out_json : String
  streamline_dice : Bool := false
  ignore_zeros_in_BA : Bool := false
  disable_streamline_distance : Bool := false
  single_compare : Option String := none
  keep_tmp : Bool := false
  ratio_flag : Bool := false
  overwrite : Bool := false
  nbr_processes : ℕ := 1
deriving DecidableEq

/-- Result of one load_data_tmp_saving call: the returned data (None or
the loaded bundle, identified by its file name), its effects, and the
tmp cache after the call. -/
structure LoadResult where
  data : Option String
  effects : List Effect
  cache : List String
deriving DecidableEq

/-- Model of load_data_tmp_saving (lines 95-158).  world gives the
number of streamlines the external loader finds in each tractogram
file; the tmp cache is the set of bundles whose density, endpoint and
centroid files were already saved.  An empty bundle logs a warning only
during the init_only precompute pass (lines 117-120) and returns None.
A cached bundle returns None under init_only and its data otherwise
(lines 122-134).  An uncached one has its data computed and saved to the
cache (lines 135-158) and returned, even under init_only. -/
def load_data_tmp_saving (world : String → ℕ) (filename reference : String)
    (init_only disable_centroids : Bool) (cache : List String) : LoadResult :=
  if world filename = 0 then
    { data := none
      effects := if init_only then [Effect.logWarning (filename ++ (" is empty"))] else []
      cache := cache }
  else if filename ∈ cache then
    { data := if init_only then none else some filename
      effects := []
      cache := cache }
  else
    { data := some filename
      effects := [Effect.computeCache filename]
      cache := cache ++ [filename] }

/-- Result of one compute_all_measures call. -/
structure MeasureResult where
  m : Option (List (String × ℚ))
  effects : List Effect
  cache : List String
deriving DecidableEq

/-- Model of compute_all_measures (lines 161-196): both bundles are
loaded through the tmp cache with init_only false; if either load
yields None the comparison yields None, otherwise the external
compare_bundle_wrapper, abstracted as the measures parameter, produces
the dict of similarity values for the pair. -/
def compute_all_measures (world : String → ℕ)
    (measures : String → String → List (String × ℚ))
    (f1 r1 f2 r2 : String) (disable_centroids : Bool)
    (cache : List String) : MeasureResult :=
  let l1 := load_data_tmp_saving world f1 r1 false disable_centroids cache
  match l1.data with
  | none => { m := none, effects := l1.effects, cache := l1.cache }
  | some d1 =>
    let l2 := load_data_tmp_saving world f2 r2 false disable_centroids l1.cache
    match l2.data with
    | none => { m := none, effects := l1.effects ++ l2.effects, cache := l2.cache }
    | some d2 =>
      { m := some (measures d1 d2), effects := l1.effects ++ l2.effects, cache := l2.cache }

/-- The sequential precompute pass of lines 244-248 (single process):
each bundle is loaded with init_only true, threading the tmp cache;
each bundle acts as its own reference (the reference tuple does not
influence the modelled behaviour). -/
def precompute (world : String → ℕ) (disable_centroids : Bool) :
    List String → List String → List Effect × List String
  | [], cache => ([], cache)
  | b :: rest, cache =>
    let r := load_data_tmp_saving world b b true disable_centroids cache
    let r2 := precompute world disable_centroids rest r.cache
    (r.effects ++ r2.1, r2.2)

/-- State of the sequential comparison loop of lines 259-266. -/
structure ComputeState where
  results : List (Option (List (String × ℚ)))
  effects : List Effect
  cache : List String
deriving DecidableEq

/-- The sequential comparison loop of lines 259-266: one
compute_all_measures call per pair, collecting the results in order. -/
def computeAll (world : String → ℕ) (measures : String → String → List (String × ℚ))
    (disable_centroids : Bool) :
    List (String × String) → List String → ComputeState
  | [], cache => { results := [], effects := [], cache := cache }
  | p :: rest, cache =>
    let r := compute_all_measures world measures p.1 p.1 p.2 p.2 disable_centroids cache
    let s := computeAll world measures disable_centroids rest r.cache
    { results := r.m :: s.results, effects := r.effects ++ s.effects, cache := s.cache }

/-- Model of itertools.combinations(l, 2), in iteration order. -/
def combinations2 {α : Type} : List α → List (α × α)
  | [] => []
  | x :: xs => xs.map (fun y => (x, y)) ++ combinations2 xs

/-- One step of the aggregation loop of lines 282-287: create an empty
list for an unseen measure name, then append the value. -/
def dictAppend (d : List (String × List ℚ)) (k : String) (v : ℚ) : List (String × List ℚ) :=
  if (d.lookup k).isSome then
    d.map (fun p => if p.1 = k then (p.1, p.2 ++ [v]) else p)
  else d ++ [(k, [v])]

/-- The aggregation loop of lines 278-287: fold the per-pair results
into a dict from measure name to list of values, skipping None results
(an empty bundle should not make the script crash). -/
def aggregate (results : List (Option (List (String × ℚ)))) : List (String × List ℚ) :=
  results.foldl
    (fun acc r =>
      match r with
      | none => acc
      | some md => md.foldl (fun acc2 kv => dictAppend acc2 kv.1 kv.2) acc)
    []

/-- Minimal model of Python values passed positionally to library calls. -/
inductive PyVal where
  | int : ℤ → PyVal
  | str : String → PyVal
deriving DecidableEq

/-- Model of the external multiprocessing.Pool.map(func, iterable,
chunksize): a chunksize that is a string makes the task generator die
with a TypeError, and a function whose required positional arity is not
1 raises a TypeError when the workers call it with the single item
argument.  Either failure surfaces from the blocking map call. -/
def pool_map_call (requiredArity : ℕ) (chunksize : Option PyVal) : Option PyError :=
  match chunksize with
  | some (PyVal.str _) => some (PyError.typeError ("chunksize must be an integer"))
  | _ =>
    if requiredArity ≠ 1 then
      some (PyError.typeError ("missing 1 required positional argument: tmp_dir"))
    else none

/-- load_data_tmp_saving(args, tmp_dir) requires 2 positional arguments. -/
def load_data_tmp_saving_arity : ℕ := 2

/-- compute_all_measures(args, tmp_dir) requires 2 positional arguments. -/
def compute_all_measures_arity : ℕ := 2

/-- The tail of main (lines 278-294): aggregate the non-None results,
write the output JSON, and remove the tmp dir unless keep_tmp. -/
def finish (effs : List Effect) (cs : ComputeState) (args : BPCArgs) (tmp_dir : String) : Run :=
  { effects := effs ++ cs.effects
      ++ [Effect.writeJson args.out_json (aggregate cs.results)]
      ++ (if args.keep_tmp then [] else [Effect.rmtree tmp_dir])
    result := none }

/-- Model of main (lines 199-294).  Checks in source order: inputs
exist, output collision, ratio without single_compare (parser.error).
Then the tmp dir is created.  With single_compare, the pairs are each
remaining bundle against the single file; in the multiprocess case the
comparisons go through pool.map(compute_all_measures, zip(...)), whose
mapped function is missing its tmp_dir argument.  Without
single_compare, the single-process path precomputes every bundle and
then compares all combinations; the multiprocess path calls
pool.map(load_data_tmp_saving, zip(...), tmp_dir), passing tmp_dir as
the chunksize argument (lines 250-254). -/
def bpcMain (world : String → ℕ) (measures : String → String → List (String × ℚ))
    (fs : List String) (args : BPCArgs) (tmp_dir : String) : Run :=
  if ¬ (∀ b ∈ args.in_bundles, b ∈ fs) then
    { effects := [], result := some (PyError.parserError ("input file does not exist")) }
  else if args.out_json ∈ fs ∧ args.overwrite = false then
    { effects := [], result := some (PyError.parserError ("output exists, use -f to force overwriting")) }
  else if args.ratio_flag = true ∧ args.single_compare = none then
    { effects := [], result := some (PyError.parserError ("Can only compute ratio if also using single_compare")) }
  else
    let eff0 := [Effect.mkdirTmp tmp_dir]
    match args.single_compare with
    | some sc =>
      let pairs := (args.in_bundles.erase sc).map (fun b => (b, sc))
      if args.nbr_processes = 1 then
        finish eff0 (computeAll world measures args.disable_streamline_distance pairs []) args tmp_dir
      else
        match pool_map_call compute_all_measures_arity none with
        | some e => { effects := eff0, result := some e }
        | none =>
          finish eff0 (computeAll world measures args.disable_streamline_distance pairs []) args tmp_dir
    | none =>
      if args.nbr_processes = 1 then
        let pre := precompute world args.disable_streamline_distance args.in_bundles []
        let pairs := combinations2 args.in_bundles
        finish (eff0 ++ pre.1)
          (computeAll world measures args.disable_streamline_distance pairs pre.2) args tmp_dir
      else
        match pool_map_call load_data_tmp_saving_arity (some (PyVal.str tmp_dir)) with
        | some e => { effects := eff0, result := some e }
        | none =>
          let pre := precompute world args.disable_streamline_distance args.in_bundles []
          let pairs := combinations2 args.in_bundles
          finish (eff0 ++ pre.1)
            (computeAll world measures args.disable_streamline_distance pairs pre.2) args tmp_dir

/-- The non-init load of a bundle never fails on a nonempty bundle: it
returns None exactly for an empty one, cached or not. -/
theorem load_data_nofail (world : String → ℕ) (f r : String) (dc : Bool)
    (cache : List String) :
    (load_data_tmp_saving world f r false dc cache).data =
      if world f = 0 then none else some f := by
  unfold load_data_tmp_saving
  by_cases h : world f = 0
  · simp [h]
  · by_cases hc : f ∈ cache
    · simp [h, hc]
    · simp [h, hc]

/-- A comparison yields a measure dict exactly when both bundles are
nonempty, independent of the tmp cache state. -/
theorem compute_all_measures_m (world : String → ℕ)
    (measures : String → String → List (String × ℚ))
    (f1 r1 f2 r2 : String) (dc : Bool) (cache : List String) :
    (compute_all_measures world measures f1 r1 f2 r2 dc cache).m =
      if world f1 = 0 ∨ world f2 = 0 then none else some (measures f1 f2) := by
  simp only [compute_all_measures]
  rw [load_data_nofail]
  by_cases h1 : world f1 = 0
  · simp [h1]
  · rw [if_neg h1]
    simp only []
    rw [load_data_nofail]
    by_cases h2 : world f2 = 0
    · simp [h1, h2]
    · simp [h1, h2]

/-- The sequential comparison loop returns, pair by pair, the measure
dict for both-nonempty pairs and None otherwise. -/
theorem computeAll_results (world : String → ℕ)
    (measures : String → String → List (String × ℚ)) (dc : Bool) :
    ∀ (pairs : List (String × String)) (cache : List String),
      (computeAll world measures dc pairs cache).results =
        pairs.map (fun p => if world p.1 = 0 ∨ world p.2 = 0 then none
                            else some (measures p.1 p.2)) := by
  intro pairs
  induction pairs with
  | nil =>
    intro cache
    rfl
  | cons p rest ih =>
    intro cache
    simp only [computeAll, List.map_cons]
    rw [compute_all_measures_m, ih]

/-- During a single-process precompute, every empty bundle is logged as
a warning, regardless of the cache state. -/
theorem precompute_warns (world : String → ℕ) (dc : Bool) :
    ∀ (bundles cache : List String) (b : String),
      b ∈ bundles → world b = 0 →
      Effect.logWarning (b ++ (" is empty")) ∈ (precompute world dc bundles cache).1 := by
  intro bundles
  induction bundles with
  | nil =>
    intro cache b hb
    simp at hb
  | cons x rest ih =>
    intro cache b hb hb0
    simp only [precompute]
    rcases List.mem_cons.mp hb with rfl | hbtail
    · refine List.mem_append.mpr (Or.inl ?_)
      simp [load_data_tmp_saving, hb0]
    · exact List.mem_append.mpr (Or.inr (ih _ b hbtail hb0))

end BPC

/-- C6: in a single-process batch run of scil_bundle_pairwise_comparison
without single_compare, an empty input bundle is logged as a warning
during the precompute pass and yields None for every unit of work
involving it rather than raising; those comparisons are skipped by the
aggregation and the run still exits successfully, writing the output
JSON aggregated from the remaining both-nonempty pairs. -/
theorem c6_empty_bundle_skipped
    (world : String → ℕ) (measures : String → String → List (String × ℚ))
    (fs : List String) (args : BPC.BPCArgs) (tmp_dir b : String)
    (hin : ∀ x ∈ args.in_bundles, x ∈ fs)
    (hout : ¬(args.out_json ∈ fs ∧ args.overwrite = false))
    (hratio : args.ratio_flag = false)
    (hsingle : args.single_compare = none)
    (hcpu : args.nbr_processes = 1)
    (hb : b ∈ args.in_bundles) (hb0 : world b = 0) :
    (BPC.bpcMain world measures fs args tmp_dir).result = none
    ∧ Effect.logWarning (b ++ (" is empty"))
        ∈ (BPC.bpcMain world measures fs args tmp_dir).effects
    ∧ Effect.writeJson args.out_json
        (BPC.aggregate ((BPC.combinations2 args.in_bundles).map
          (fun p => if world p.1 = 0 ∨ world p.2 = 0 then none
                    else some (measures p.1 p.2))))
        ∈ (BPC.bpcMain world measures fs args tmp_dir).effects := by
  simp only [BPC.bpcMain]
  rw [if_neg (fun hcon => hcon hin), if_neg hout,
    if_neg (by rintro ⟨hr, _⟩; rw [hratio] at hr; exact absurd hr (by simp)), hsingle]
  simp only [if_pos hcpu, BPC.finish]
  refine ⟨trivial, ?_, ?_⟩
  · have hw := BPC.precompute_warns world args.disable_streamline_distance
      args.in_bundles ([]) b hb hb0
    simp only [List.mem_append, List.mem_cons, List.mem_singleton]
    tauto
  · rw [BPC.computeAll_results]
    simp

/-- C9: with more than one process and no single_compare, the modelled
precompute step of scil_bundle_pairwise_comparison fails with a
TypeError out of pool.map, to which tmp_dir was passed as the chunksize
argument; no bundle comparison happens and no JSON is written. -/
theorem c9_pool_map_chunksize_typeerror
    (world : String → ℕ) (measures : String → String → List (String × ℚ))
    (fs : List String) (args : BPC.BPCArgs) (tmp_dir : String)
    (hin : ∀ x ∈ args.in_bundles, x ∈ fs)
    (hout : ¬(args.out_json ∈ fs ∧ args.overwrite = false))
    (hratio : args.ratio_flag = false)
    (hsingle : args.single_compare = none)
    (hcpu : args.nbr_processes ≠ 1) :
    BPC.bpcMain world measures fs args tmp_dir =
      { effects := [Effect.mkdirTmp tmp_dir],
        result := some (PyError.typeError ("chunksize must be an integer")) } := by
  simp only [BPC.bpcMain]
  rw [if_neg (fun hcon => hcon hin), if_neg hout,
    if_neg (by rintro ⟨hr, _⟩; rw [hratio] at hr; exact absurd hr (by simp)), hsingle]
  simp only [if_neg hcpu]
  rfl

def bpc_world : String → ℕ := fun f => if f = "a.trk" then 0 else 2

def bpc_measures : String → String → List (String × ℚ) := fun _ _ => [("dice", 1)]

def bpc_fs : List String := ["a.trk", "b.trk", "c.trk"]

def bpc_args : BPC.BPCArgs :=
  { in_bundles := ["a.trk", "b.trk", "c.trk"], out_json := "out.json" }

/-- C6 witness: a concrete batch with one empty bundle. -/
theorem c6_empty_bundle_skipped_witness :
    (BPC.bpcMain bpc_world bpc_measures bpc_fs bpc_args ("tmp0/")).result = none
    ∧ Effect.logWarning ("a.trk" ++ (" is empty"))
        ∈ (BPC.bpcMain bpc_world bpc_measures bpc_fs bpc_args ("tmp0/")).effects
    ∧ Effect.writeJson bpc_args.out_json
        (BPC.aggregate ((BPC.combinations2 bpc_args.in_bundles).map
          (fun p => if bpc_world p.1 = 0 ∨ bpc_world p.2 = 0 then none
                    else some (bpc_measures p.1 p.2))))
        ∈ (BPC.bpcMain bpc_world bpc_measures bpc_fs bpc_args ("tmp0/")).effects :=
  c6_empty_bundle_skipped bpc_world bpc_measures bpc_fs bpc_args ("tmp0/") ("a.trk")
    (by decide) (by decide) rfl rfl rfl (by decide) (by decide)

def bpc_args9 : BPC.BPCArgs :=
  { in_bundles := ["a.trk", "b.trk"], out_json := "out.json", nbr_processes := 4 }

/-- C9 witness: a concrete multiprocess batch run. -/
theorem c9_pool_map_chunksize_typeerror_witness :
    BPC.bpcMain bpc_world bpc_measures bpc_fs bpc_args9 ("tmp0/") =
      { effects := [Effect.mkdirTmp ("tmp0/")],
        result := some (PyError.typeError ("chunksize must be an integer")) } :=
  c9_pool_map_chunksize_typeerror bpc_world bpc_measures bpc_fs bpc_args9 ("tmp0/")
    (by decide) (by decide) rfl rfl (by decide)

def c7_raw : FT.FTArgs :=
  { in_fibertubes := "in.trk", out_tractogram := "out.trk",
    step_size := 1/2, blur_radius := 1/10, rk_order := 3 }

/-- C7 witness: rk_order 3 is rejected before any work. -/
theorem c7_rk_order_choices_enforced_witness :
    FT.runScript c7_raw [] =
      { effects := [],
        result := some (PyError.parserError ("argument --rk_order: invalid choice")) } :=
  (c7_rk_order_choices_enforced c7_raw []).2 (by decide)

namespace SAT

/-- The quote character delimiting the Python string literals. -/
def pyQuote : Char := Char.ofNat 39

/-- The exact source text of the in_transfo add_argument statement of
scripts/scil_surface_apply_transform.py lines 52-54, which closes
p.add_argument and then carries one extra closing parenthesis. -/
def in_transfo_stmt : String :=
  "    p.add_argument(\x27in_transfo\x27,\n                   help=\x27Path of the file containing the 4x4 \\n\x27\n                        \x27transformation, matrix (.txt, .npy or .mat).\x27))"

/-- Parenthesis scan of a Python statement as the tokenizer sees it:
characters between single quotes belong to string literals; outside of
them, a closing parenthesis without a matching open one is a syntax
error, as is an unclosed parenthesis at the end of the module. -/
def parenScanOk : List Char → Bool → ℤ → Bool
  | [], _, depth => depth == 0
  | c :: cs, inStr, depth =>
    if c = pyQuote then parenScanOk cs (!inStr) depth
    else if inStr then parenScanOk cs inStr depth
    else if c = '(' then parenScanOk cs inStr (depth + 1)
    else if c = ')' then
      if depth ≤ 0 then false else parenScanOk cs inStr (depth - 1)
    else parenScanOk cs inStr depth

/-- Whether the module text around lines 52-54 parses; the statement
starts at parenthesis depth 0 at module level. -/
def module_syntax_ok : Bool := parenScanOk in_transfo_stmt.toList false 0

/-- The argparse destination names defined by _build_arg_parser (lines
45-67): the positionals in_moving_surface, in_transfo and out_surface,
the options inverse and in_deformation, and verbose and overwrite from
the shared helper functions. -/
def arg_dests : List String :=
  ["in_moving_surface", "in_transfo", "out_surface", "inverse",
   "in_deformation", "verbose", "overwrite"]

/-- The argparse namespace attributes read by main in evaluation order
(lines 73-91): verbose, then in_surface, in_transfo and ants_warp for
assert_inputs_exist, then out_surface for assert_outputs_exist,
in_surface again for the mesh load, in_transfo, in_deformation twice,
inverse, and out_surface for the save. -/
def main_attr_reads : List String :=
  ["verbose", "in_surface", "in_transfo", "ants_warp", "out_surface",
   "in_surface", "in_transfo", "in_deformation", "inverse", "out_surface"]

/-- Model of main: reading an attribute of the argparse namespace that
no argument defines raises AttributeError, stopping the run before any
surface is processed; only if every read resolved would the surface
pipeline run. -/
def sat_main : Run :=
  match main_attr_reads.find? (fun n => !(arg_dests.contains n)) with
  | some n => { effects := [], result := some (PyError.attributeError n) }
  | none => { effects := [Effect.processSurface], result := none }

/-- Model of one invocation of the script with any argument vector:
Python compiles the module first, and a module whose source does not
parse raises SyntaxError before argparse or main can run. -/
def run_script (argv : List String) : Run :=
  if module_syntax_ok then sat_main
  else { effects := [], result := some PyError.syntaxError }

end SAT

set_option maxRecDepth 10000

/-- C8: every invocation of scil_surface_apply_transform fails before
any surface is processed.  The module source carries an unbalanced
parenthesis in the in_transfo argument declaration, so every run, for
any argument vector, dies with SyntaxError having performed no effect;
and independently, main reads the attributes in_surface and ants_warp
which no parser argument defines, so even with the parenthesis repaired
main would die with AttributeError on in_surface before touching any
surface. -/
theorem c8_surface_transform_always_fails (argv : List String) :
    SAT.run_script argv = { effects := [], result := some PyError.syntaxError }
    ∧ SAT.module_syntax_ok = false
    ∧ "in_surface" ∉ SAT.arg_dests
    ∧ "ants_warp" ∉ SAT.arg_dests
    ∧ SAT.sat_main =
        { effects := [], result := some (PyError.attributeError ("in_surface")) } := by
  have hsyn : SAT.module_syntax_ok = false := by decide
  refine ⟨?_, hsyn, by decide, by decide, by decide⟩
  unfold SAT.run_script
  rw [hsyn]
  simp

namespace TPM

/-- The operation argument of scil_tractogram_point_math (choices at
lines 53-58). -/
inductive Operation where
  | mean | sum | min | max | correlation
deriving DecidableEq, BEq

/-- The dpp_or_dps positional argument (choices at lines 59-65). -/
inductive Mode where
  | dpp | dps
deriving DecidableEq, BEq

/-- A data_per_point entry value: per streamline, either a 1-D numpy
array (one scalar per point) or a 2-D one (one vector per point). -/
inductive DppVal where
  | oneD : List (List ℚ) → DppVal
  | twoD : List (List (List ℚ)) → DppVal
deriving DecidableEq

/-- Whether data_per_point[name][0] has a 1-dimensional shape (the
check of lines 132-133). -/
def dppShapeDimOne : DppVal → Bool
  | DppVal.oneD _ => true
  | DppVal.twoD _ => false

/-- A data_per_streamline entry value: one vector per streamline. -/
abbrev DpsVal : Type := List (List ℚ)

/-- The stateful tractogram as the script sees it: streamline geometry,
the data_per_point and data_per_streamline dicts, and the space
metadata (space_attributes of abstract type, space and origin). -/
structure SFT (A : Type) where
  streamlines : List (List (ℚ × ℚ × ℚ))
  data_per_point : List (String × DppVal)
  data_per_streamline : List (String × DpsVal)
  space_attributes : A
  space : String
  origin : String
deriving DecidableEq

/-- Arguments of scil_tractogram_point_math (lines 48-95); in_dpp_name
and out_name model args.in_dpp_name[0] and args.out_name[0], the only
groups the script reads. -/
structure TPMArgs where
  operation : Operation
  dpp_or_dps : Mode
  in_tractogram : String
  in_dpp_name : List String
  out_name : List String
  out_tractogram : String
  endpoints_only : Bool := false
  overwrite : Bool := false
  bbox_check : Bool := true
deriving DecidableEq

/-- The key list of a modelled Python dict. -/
def keys {β : Type} (l : List (String × β)) : List String := l.map Prod.fst

/-- The per-name input checks of lines 125-140: a data_per_point key
missing from the input, a correlation on 1-D data, or a correlation in
dpp mode each make main return early without writing anything. -/
def name_check_fails {A : Type} (args : TPMArgs) (sft : SFT A) (n : String) : Bool :=
  match sft.data_per_point.lookup n with
  | none => true
  | some v =>
    (args.operation == Operation.correlation && dppShapeDimOne v)
      || (args.operation == Operation.correlation && args.dpp_or_dps == Mode.dpp)

/-- The loop of lines 142-173 building the new data_per_point and
data_per_streamline dicts from the zipped name pairs: correlation
results go to data_per_streamline, dpp mode results to data_per_point,
dps mode results to data_per_streamline, each keyed by the out_name of
its pair.  The external operation kernels are the corrOp, dppOp and
dpsOp parameters. -/
def buildDicts {A : Type} (corrOp : Operation → SFT A → String → DpsVal)
    (dppOp : Operation → SFT A → String → Bool → DppVal)
    (dpsOp : Operation → SFT A → String → Bool → DpsVal)
    (args : TPMArgs) (sft : SFT A) :
    List (String × String) → List (String × DppVal) × List (String × DpsVal)
  | [] => ([], [])
  | (in_name, o_name) :: rest =>
    let r := buildDicts corrOp dppOp dpsOp args sft rest
    if args.operation == Operation.correlation then
      (r.1, (o_name, corrOp args.operation sft in_name) :: r.2)
    else if args.dpp_or_dps == Mode.dpp then
      ((o_name, dppOp args.operation sft in_name args.endpoints_only) :: r.1, r.2)
    else
      (r.1, (o_name, dpsOp args.operation sft in_name args.endpoints_only) :: r.2)

/-- Model of main (lines 98-185): input existence and output collision
checks; early successful return without writing when the tractogram has
no streamlines, when an in_dpp_name is missing, or when a correlation
is requested on 1-D data or in dpp mode; parser.error on mismatched or
duplicated name lists; otherwise the output tractogram is built from
the input geometry, the input space metadata and only the newly
computed dicts (lines 175-179), and written.  Returns the written
tractogram, or none when the run returned before writing. -/
def tpmMain {A : Type} (corrOp : Operation → SFT A → String → DpsVal)
    (dppOp : Operation → SFT A → String → Bool → DppVal)
    (dpsOp : Operation → SFT A → String → Bool → DpsVal)
    (args : TPMArgs) (fs : List String) (sft : SFT A) :
    Except PyError (Option (SFT A)) :=
  if args.in_tractogram ∉ fs then
    Except.error (PyError.parserError ("input file does not exist"))
  else if args.out_tractogram ∈ fs ∧ args.overwrite = false then
    Except.error (PyError.parserError ("output exists, use -f to force overwriting"))
  else if sft.streamlines.length = 0 then
    Except.ok none
  else if args.in_dpp_name.length ≠ args.out_name.length then
    Except.error (PyError.parserError ("The number of in_dpp_names and out_names must be the same"))
  else if args.out_name.dedup.length ≠ args.out_name.length then
    Except.error (PyError.parserError ("The output names must be unique"))
  else if args.in_dpp_name.any (name_check_fails args sft) then
    Except.ok none
  else
    let d := buildDicts corrOp dppOp dpsOp args sft (args.in_dpp_name.zip args.out_name)
    Except.ok (some
      { streamlines := sft.streamlines
        data_per_point := d.1
        data_per_streamline := d.2
        space_attributes := sft.space_attributes
        space := sft.space
        origin := sft.origin })

/-- Every key of either dict built by the loop is the out_name of one
of the zipped pairs. -/
theorem buildDicts_keys {A : Type} (corrOp : Operation → SFT A → String → DpsVal)
    (dppOp : Operation → SFT A → String → Bool → DppVal)
    (dpsOp : Operation → SFT A → String → Bool → DpsVal)
    (args : TPMArgs) (sft : SFT A) :
    ∀ (pairs : List (String × String)) (k : String),
      (k ∈ keys (buildDicts corrOp dppOp dpsOp args sft pairs).1 →
        k ∈ pairs.map Prod.snd)
      ∧ (k ∈ keys (buildDicts corrOp dppOp dpsOp args sft pairs).2 →
        k ∈ pairs.map Prod.snd) := by
  intro pairs
  induction pairs with
  | nil =>
    intro k
    constructor <;> (intro h; simp [keys, buildDicts] at h)
  | cons p rest ih =>
    intro k
    obtain ⟨in_name, o_name⟩ := p
    have ih1 := (ih k).1
    have ih2 := (ih k).2
    simp only [keys] at ih1 ih2
    refine ⟨?_, ?_⟩ <;>
      (intro h
       simp only [buildDicts] at h
       split_ifs at h with h1 h2 <;>
         simp only [keys, List.map_cons, List.mem_cons] at h ⊢ <;>
         tauto)

end TPM

/-- C10: when scil_tractogram_point_math writes an output tractogram,
the data_per_point and data_per_streamline of that output carry only
keys among the requested out_name entries, so every pre-existing
data_per_point and data_per_streamline key of the input that is not
among the computed outputs is absent from the output; the streamline
geometry and the space metadata are carried over unchanged. -/
theorem c10_output_only_new_keys {A : Type}
    (corrOp : TPM.Operation → TPM.SFT A → String → TPM.DpsVal)
    (dppOp : TPM.Operation → TPM.SFT A → String → Bool → TPM.DppVal)
    (dpsOp : TPM.Operation → TPM.SFT A → String → Bool → TPM.DpsVal)
    (args : TPM.TPMArgs) (fs : List String) (sft out : TPM.SFT A)
    (h : TPM.tpmMain corrOp dppOp dpsOp args fs sft = Except.ok (some out)) :
    (∀ k, k ∈ TPM.keys sft.data_per_point → k ∉ args.out_name →
      k ∉ TPM.keys out.data_per_point ∧ k ∉ TPM.keys out.data_per_streamline)
    ∧ (∀ k, k ∈ TPM.keys sft.data_per_streamline → k ∉ args.out_name →
      k ∉ TPM.keys out.data_per_point ∧ k ∉ TPM.keys out.data_per_streamline)
    ∧ out.streamlines = sft.streamlines
    ∧ out.space_attributes = sft.space_attributes
    ∧ out.space = sft.space
    ∧ out.origin = sft.origin := by
  unfold TPM.tpmMain at h
  split_ifs at h <;>
    first
      | exact Except.noConfusion h
      | exact Option.noConfusion (Except.ok.inj h)
      | skip
  simp only [Except.ok.injEq, Option.some.injEq] at h
  subst h
  have hsub : ∀ k, k ∈ (args.in_dpp_name.zip args.out_name).map Prod.snd →
      k ∈ args.out_name := by
    intro k hk
    rcases List.mem_map.mp hk with ⟨p, hp, rfl⟩
    exact (List.of_mem_zip hp).2
  refine ⟨?_, ?_, rfl, rfl, rfl, rfl⟩
  · intro k _ hk
    constructor
    · intro hmem
      exact hk (hsub k ((TPM.buildDicts_keys corrOp dppOp dpsOp args sft _ k).1 hmem))
    · intro hmem
      exact hk (hsub k ((TPM.buildDicts_keys corrOp dppOp dpsOp args sft _ k).2 hmem))
  · intro k _ hk
    constructor
    · intro hmem
      exact hk (hsub k ((TPM.buildDicts_keys corrOp dppOp dpsOp args sft _ k).1 hmem))
    · intro hmem
      exact hk (hsub k ((TPM.buildDicts_keys corrOp dppOp dpsOp args sft _ k).2 hmem))

def tpm_sft0 : TPM.SFT ℕ :=
  { streamlines := [[(0, 0, 0)]],
    data_per_point := [("a", TPM.DppVal.twoD [[[1]]]), ("old", TPM.DppVal.oneD [[2]])],
    data_per_streamline := [("olds", [[3]])],
    space_attributes := 7,
    space := "rasmm",
    origin := "corner" }

def tpm_args0 : TPM.TPMArgs :=
  { operation := TPM.Operation.mean, dpp_or_dps := TPM.Mode.dpp,
    in_tractogram := "t.trk", in_dpp_name := ["a"], out_name := ["b"],
    out_tractogram := "o.trk" }

def tpm_corr0 : TPM.Operation → TPM.SFT ℕ → String → TPM.DpsVal :=
  fun _ _ _ => [[1]]

def tpm_dpp0 : TPM.Operation → TPM.SFT ℕ → String → Bool → TPM.DppVal :=
  fun _ _ _ _ => TPM.DppVal.oneD [[1]]

def tpm_dps0 : TPM.Operation → TPM.SFT ℕ → String → Bool → TPM.DpsVal :=
  fun _ _ _ _ => [[1]]

def tpm_out0 : TPM.SFT ℕ :=
  { streamlines := tpm_sft0.streamlines,
    data_per_point := [("b", TPM.DppVal.oneD [[1]])],
    data_per_streamline := [],
    space_attributes := tpm_sft0.space_attributes,
    space := tpm_sft0.space,
    origin := tpm_sft0.origin }

theorem tpm_main_eval :
    TPM.tpmMain tpm_corr0 tpm_dpp0 tpm_dps0 tpm_args0 (["t.trk"]) tpm_sft0 =
      Except.ok (some tpm_out0) := by
  rfl

/-- C10 witness at a concrete input: the pre-existing keys old and olds
are absent from the written output, whose geometry equals the input. -/
theorem c10_output_only_new_keys_witness :
    ("old" ∉ TPM.keys tpm_out0.data_per_point
      ∧ "old" ∉ TPM.keys tpm_out0.data_per_streamline)
    ∧ tpm_out0.streamlines = tpm_sft0.streamlines := by
  have h := c10_output_only_new_keys tpm_corr0 tpm_dpp0 tpm_dps0 tpm_args0
    (["t.trk"]) tpm_sft0 tpm_out0 tpm_main_eval
  exact ⟨h.1 ("old") (by decide) (by decide), h.2.2.1⟩

end ScilpyModel
